import Mathlib

/-!
Verification of the typescript-p2 notes repository.

The repository demonstrates TypeScript type-system behaviour: growable
arrays vs fixed-arity tuples, literal-union validation, numeric enums,
and the `any` / `unknown` dichotomy.  We embed the two stages the notes
distinguish:

* the *checking stage* (the static type checker's accept/reject verdict
  on each operation, as documented in the source), and
* the *execution stage* (the JavaScript runtime semantics of the emitted
  code, `src/unnamed/part_000`).

JavaScript values are modelled by `Value`; runtime results that can
crash the run are `JsOutcome`.
-/

set_option autoImplicit false

namespace TsP2

/-- A JavaScript runtime value: a number, a string, a plain object
(association list of fields), or the `undefined` marker. -/
inductive Value where
  | num (n : Int)
  | str (s : String)
  | obj (fields : List (String × Value))
  | undef

/-- Result of a runtime operation: either a value or a crash of the run
(an uncaught `TypeError`). -/
inductive JsOutcome (α : Type) where
  | ok (a : α)
  | crash (msg : String)

/-- `v.isNum` tells whether the value is a number (the element type both
`coord : number[]` and the tuple `[number, number]` require). -/
def Value.isNum : Value → Bool
  | .num _ => true
  | _ => false

/-! ### Growable arrays (`const coord: number[] = [1, 2]`, src/main.ts 5-11) -/

/-- JS `xs.push(v)`: appends at the end, growing the array by one. -/
def jsPush (xs : List Value) (v : Value) : List Value :=
  xs ++ [v]

/-- JS indexed read `xs[i]`: yields the element when `i` is in range and
the `undefined` marker otherwise ("Accessing coord[3] would compile but
return 'undefined' at runtime").  Indexed reads never crash, which the
total return type records. -/
def jsGet (xs : List Value) (i : Nat) : Value :=
  (xs.get? i).getD Value.undef

/-- JS indexed write `xs[i] = v`: replaces in range; beyond the current
length it extends the array, the skipped slots reading as `undefined`. -/
def jsSet (xs : List Value) (i : Nat) (v : Value) : List Value :=
  if i < xs.length then xs.set i v
  else xs ++ List.replicate (i - xs.length) Value.undef ++ [v]

/-! ### The fixed-arity pair (`let direction: [number, number]`, src/main.ts 26-36;
compiled as `tuple` in src/unnamed/part_000 24-33). -/

/-- The statements the source performs on the pair: an indexed write or a
`push` append. -/
inductive PairOp where
  | setAt (i : Nat) (v : Value)
  | push (v : Value)

/-- Checking-stage verdict on a pair operation, as the source documents it
for the tuple type `[number, number]`: an in-range indexed write of a
number is accepted; a write at index 2 or beyond is an error ("Tuple type
has no element at index 2"), and `push` is rejected as violating the
fixed-length contract. -/
def checkPairOp : PairOp → Bool
  | .setAt i v => decide (i < 2) && v.isNum
  | .push _ => false

/-- Execution-stage semantics of a pair operation: the emitted JavaScript
has no tuples, so both operations act on a plain growable array. -/
def pairExec (xs : List Value) : PairOp → List Value
  | .setAt i v => jsSet xs i v
  | .push v => jsPush xs v

/-- Run a sequence of pair operations under the JavaScript semantics. -/
def runPairOps (xs : List Value) (ops : List PairOp) : List Value :=
  ops.foldl pairExec xs

/-- One step of the spec's intended semantics: a checking-stage rejection
means "the statement is never executed", so rejected operations leave the
state unchanged. -/
def stepChecked (xs : List Value) (op : PairOp) : List Value :=
  if checkPairOp op then pairExec xs op else xs

/-- Run a sequence of pair operations, skipping every checker-rejected one. -/
def runCheckedPairOps (xs : List Value) (ops : List PairOp) : List Value :=
  ops.foldl stepChecked xs

/-- The pair operations the compiled artifact src/unnamed/part_000 (lines
25-27) actually executes on `tuple = [1, 2]`: the in-place write
`tuple[0] = 5` and, uncommented, the append `tuple.push(3)`. -/
def part000TupleOps : List PairOp :=
  [.setAt 0 (.num 5), .push (.num 3)]

/-- The state of `tuple` after the compiled artifact's statements run. -/
def part000TupleFinal : List Value :=
  runPairOps [.num 1, .num 2] part000TupleOps

/-! ### Closed-set validation of the direction token
(src/unnamed/part_001 81-95, compiled in src/unnamed/part_000 74-87). -/

/-- The closed set of tokens of the literal union type
`"north" | "south" | "east" | "west"`. -/
def allowedDirections : List String :=
  ["north", "south", "east", "west"]

/-- The validation in the source, as a function of the candidate `input`:
the `if` chain tests the four literals; on a hit it binds `direction` to
the candidate, otherwise it leaves `direction` unbound and calls
`console.error("Invalid direction entered.")`.  The first component is
the binding of `direction` (`none` = still unbound), the second the
messages sent to the error sink. -/
def validateDirection (input : String) : Option String × List String :=
  if input = "north" ∨ input = "south" ∨ input = "east" ∨ input = "west" then
    (some input, [])
  else
    (none, ["Invalid direction entered."])

/-! ### Numeric enums (src/unnamed/part_001 102-117, compiled in
src/unnamed/part_000 92-99). -/

/-- Member valuation of a TypeScript numeric enum, one member at a time:
an explicit initializer sets the value, an uninitialized member gets the
previous member's value plus one.  `prev` is the value of the previous
member; the seed `-1` makes an unseeded first member start at `0`. -/
def enumValuesFrom (prev : Int) : List (String × Option Int) → List (String × Int)
  | [] => []
  | (lbl, some v) :: rest => (lbl, v) :: enumValuesFrom v rest
  | (lbl, none) :: rest => (lbl, prev + 1) :: enumValuesFrom (prev + 1) rest

/-- Label-to-value list of a numeric enum declaration. -/
def enumValues (members : List (String × Option Int)) : List (String × Int) :=
  enumValuesFrom (-1) members

/-- The declaration `enum Numbers { Zero, One, Two, Three }`
(src/unnamed/part_001 102-107): no member has an initializer. -/
def NumbersMembers : List (String × Option Int) :=
  [("Zero", none), ("One", none), ("Two", none), ("Three", none)]

/-- The evaluated `Numbers` enum. -/
def Numbers : List (String × Int) :=
  enumValues NumbersMembers

/-- The declaration `enum Size { Small = 100, Medium, Large }`
(src/unnamed/part_001 111-115): the first member is seeded to 100. -/
def SizeMembers : List (String × Option Int) :=
  [("Small", some 100), ("Medium", none), ("Large", none)]

/-- The evaluated `Size` enum. -/
def Size : List (String × Int) :=
  enumValues SizeMembers

/-- Forward lookup `E.Label`: the integer value bound to a label. -/
def enumLookup (e : List (String × Int)) (lbl : String) : Option Int :=
  List.lookup lbl e

/-- The reverse entries a compiled numeric enum also carries: the emitted
code `Size[Size["Small"] = 100] = "Small"` (src/unnamed/part_000 94-96)
stores, next to each `label ↦ value` entry, a `value ↦ label` entry. -/
def enumReverse (e : List (String × Int)) : List (Int × String) :=
  e.map (fun p => (p.2, p.1))

/-- Reverse lookup `E[value]`: the label name bound to an integer value. -/
def enumReverseLookup (e : List (String × Int)) (v : Int) : Option String :=
  List.lookup v (enumReverse e)

/-! ### `any`, `unknown` and narrowing (src/unnamed/part_001 150-203). -/

/-- The member name sets the checker knows for the primitive types the
source narrows to: strings support `toUpperCase` (and `length`), numbers
support `toFixed`. -/
def stringMembers : List String :=
  ["toUpperCase", "length"]

/-- Member names of the number type used by the source. -/
def numberMembers : List String :=
  ["toFixed"]

/-- The static types the `any` / `unknown` examples involve. -/
inductive TsType where
  | any
  | unknown
  | string
  | number

/-- Checking-stage verdict on a member access `x.m`, by the declared type
of `x`, as the source documents it: on `any` every access compiles ("You
can access any property or call any method ... even if it doesn't exist
at runtime"); on `unknown` every access is an error ("Object is of type
'unknown'") until the value is narrowed; on a primitive type only its
known members are accepted. -/
def checkMemberAccess : TsType → String → Bool
  | .any, _ => true
  | .unknown, _ => false
  | .string, m => stringMembers.contains m
  | .number, m => numberMembers.contains m

/-- JavaScript `typeof v`. -/
def typeofVal : Value → String
  | .num _ => "number"
  | .str _ => "string"
  | .obj _ => "object"
  | Value.undef => "undefined"

/-- The narrowing the discriminator chain performs: inside a branch
guarded by `typeof x === "string"` the checker treats `x` as a string,
inside `typeof x === "number"` as a number; other `typeof` results leave
no primitive narrowing used by the source. -/
def narrowByTypeof (t : String) : Option TsType :=
  if t = "string" then some .string
  else if t = "number" then some .number
  else none

/-- Execution-stage property read `v.p`: on an object, the field if
present and the `undefined` marker otherwise ("results in `undefined` at
runtime"); on a string, the built-in `length`; any other property of a
primitive reads as `undefined`. -/
def getProp (v : Value) (p : String) : Value :=
  match v with
  | .obj fields => (List.lookup p fields).getD Value.undef
  | .str s => if p = "length" then .num s.length else Value.undef
  | _ => Value.undef

/-- Upper-case a string character by character (JS `toUpperCase` on the
ASCII strings the source uses). -/
def strToUpper (s : String) : String :=
  ⟨s.data.map Char.toUpper⟩

/-- Execution-stage method call `v.m()`: a string's `toUpperCase` returns
the upper-cased string; calling anything that is not a function — in
particular a non-existent member, which reads as `undefined` — crashes
the run with a `TypeError` ("Compiles OK, but CRASHES at runtime"). -/
def callMethod (v : Value) (m : String) : JsOutcome Value :=
  match v, m with
  | .str s, "toUpperCase" => .ok (.str (strToUpper s))
  | _, _ => .crash (m ++ " is not a function")

/-- The value held by `looselyTyped : any` when the failing operations
run: the last assignment before them is `looselyTyped = { id: 1 }`
(src/unnamed/part_001 152-155). -/
def looselyTyped : Value :=
  .obj [("id", .num 1)]

/-- The value held by `definitelyNotAny : unknown` when the discriminator
chain runs: the last assignment is `definitelyNotAny = { name: "TS" }`;
the narrowing example's string case is exercised with the earlier
assignment `definitelyNotAny = "world"` (src/unnamed/part_001 185-189). -/
def definitelyNotAnyString : Value :=
  .str "world"

/-! ## Claims -/

/-- C2: the seeded enum `Size` evaluates to Small = 100, Medium = 101,
Large = 102; each subsequent label's value is its predecessor's plus 1,
and reading back `Size.Medium` yields 101. -/
theorem c2_size_enum_seeded :
    Size = [("Small", 100), ("Medium", 101), ("Large", 102)] ∧
    List.Chain' (fun a b => b.2 = a.2 + 1) Size ∧
    enumLookup Size "Medium" = some 101 := by
  refine ⟨by decide, ?_, by decide⟩
  rw [show Size = [("Small", 100), ("Medium", 101), ("Large", 102)] from rfl]
  simp [List.chain'_cons]

/-- C4: the unseeded enum `Numbers` starts at 0 and increments by 1 per
label, and reading back `Numbers.One` yields 1. -/
theorem c4_numbers_enum_sequential :
    Numbers = [("Zero", 0), ("One", 1), ("Two", 2), ("Three", 3)] ∧
    List.Chain' (fun a b => b.2 = a.2 + 1) Numbers ∧
    enumLookup Numbers "Zero" = some 0 ∧
    enumLookup Numbers "One" = some 1 := by
  refine ⟨by decide, ?_, by decide, by decide⟩
  rw [show Numbers = [("Zero", 0), ("One", 1), ("Two", 2), ("Three", 3)] from rfl]
  simp [List.chain'_cons]

/-- C10: the numeric enum `Size` round-trips through its reverse mapping:
for each of the three labels, looking up the label's value and then
looking that value back up returns the label. -/
theorem c10_size_enum_reverse_roundtrip :
    (enumLookup Size "Small").bind (enumReverseLookup Size) = some "Small" ∧
    (enumLookup Size "Medium").bind (enumReverseLookup Size) = some "Medium" ∧
    (enumLookup Size "Large").bind (enumReverseLookup Size) = some "Large" := by
  refine ⟨by decide, by decide, by decide⟩

/-- C3: for every candidate string, the closed-set validation binds the
candidate with no diagnostic when it is one of the four allowed tokens,
and otherwise leaves the target unbound and sends exactly one diagnostic
to the error sink. -/
theorem c3_direction_validation :
    ∀ s : String, validateDirection s =
      if s ∈ allowedDirections then (some s, [])
      else (none, ["Invalid direction entered."]) := by
  intro s
  by_cases h1 : s = "north" <;> by_cases h2 : s = "south" <;>
    by_cases h3 : s = "east" <;> by_cases h4 : s = "west" <;>
    simp [validateDirection, allowedDirections, h1, h2, h3, h4]

/-- C5: appending to the growable array increases the length by exactly
1, and reading the index equal to the old length yields the appended
element. -/
theorem c5_array_push_length_and_read :
    ∀ (xs : List Value) (v : Value),
      (jsPush xs v).length = xs.length + 1 ∧
      jsGet (jsPush xs v) xs.length = v := by
  intro xs v
  constructor
  · simp [jsPush]
  · simp [jsGet, jsPush, List.getElem?_concat_length]

/-- C9: reading the growable array at any index at or beyond its length
yields the `undefined` marker (and, `jsGet` being total, never faults). -/
theorem c9_oob_read_yields_undefined :
    ∀ (xs : List Value) (i : Nat), xs.length ≤ i → jsGet xs i = Value.undef := by
  intro xs i h
  simp [jsGet, List.getElem?_eq_none h]

/-- C9 witness: reading index 3 of the three-element array `[5, 2, 3]`
(the state of `coord` after its mutations) yields `undefined`. -/
theorem c9_oob_read_yields_undefined_witness :
    jsGet [.num 5, .num 2, .num 3] 3 = Value.undef :=
  c9_oob_read_yields_undefined [.num 5, .num 2, .num 3] 3 (by decide)

/-- C6: on an `any`-typed value every member access passes the checking
stage; with `looselyTyped = { id: 1 }`, calling the non-existent method
crashes the run, calling `toUpperCase` crashes the run, and reading the
non-existent property yields the `undefined` marker. -/
theorem c6_any_defers_failures_to_execution :
    (∀ m : String, checkMemberAccess .any m = true) ∧
    callMethod looselyTyped "someNonExistentMethod" =
      .crash "someNonExistentMethod is not a function" ∧
    callMethod looselyTyped "toUpperCase" =
      .crash "toUpperCase is not a function" ∧
    getProp looselyTyped "someNonExistentProperty" = Value.undef :=
  ⟨fun _ => rfl, rfl, rfl, rfl⟩

/-- C7: on an `unknown`-typed value the string-only operation
`toUpperCase` is rejected at the checking stage; for every value whose
`typeof` is `"string"`, the discriminator narrows the static type to
string, under which the operation is accepted, and the call succeeds at
execution, returning the upper-cased string. -/
theorem c7_unknown_checked_then_narrowed :
    checkMemberAccess .unknown "toUpperCase" = false ∧
    (∀ v : Value, typeofVal v = "string" →
      narrowByTypeof (typeofVal v) = some .string ∧
      checkMemberAccess .string "toUpperCase" = true ∧
      ∃ s, v = .str s ∧ callMethod v "toUpperCase" = .ok (.str (strToUpper s))) := by
  refine ⟨rfl, ?_⟩
  intro v h
  cases v with
  | str s => exact ⟨rfl, rfl, s, rfl, rfl⟩
  | num n => simp [typeofVal] at h
  | obj fields => simp [typeofVal] at h
  | undef => simp [typeofVal] at h

/-- C7 witness: with the source's string assignment
`definitelyNotAny = "world"`, the discriminator narrows to string and
`toUpperCase` succeeds, returning `"WORLD"`. -/
theorem c7_unknown_checked_then_narrowed_witness :
    checkMemberAccess .unknown "toUpperCase" = false ∧
    narrowByTypeof (typeofVal definitelyNotAnyString) = some .string ∧
    checkMemberAccess .string "toUpperCase" = true ∧
    callMethod definitelyNotAnyString "toUpperCase" = .ok (.str "WORLD") := by
  have h := c7_unknown_checked_then_narrowed.2 definitelyNotAnyString rfl
  refine ⟨c7_unknown_checked_then_narrowed.1, h.1, h.2.1, ?_⟩
  obtain ⟨s, hs, hc⟩ := h.2.2
  have hs2 : Value.str "world" = Value.str s := hs
  injection hs2 with h2
  subst h2
  exact hc.trans rfl

/-- C1 counterexample: the append `tuple.push(3)` is rejected at the
checking stage, yet it is among the statements the compiled artifact
executes, and after the run the pair holds three elements — the rejected
count-changing operation did execute. -/
theorem c1_rejected_append_executes :
    checkPairOp (.push (.num 3)) = false ∧
    PairOp.push (.num 3) ∈ part000TupleOps ∧
    part000TupleFinal = [.num 5, .num 2, .num 3] ∧
    part000TupleFinal.length ≠ 2 :=
  ⟨rfl, List.Mem.tail _ (List.Mem.head _), rfl, by decide⟩

/-- C1 (amended): appends and out-of-range writes on the fixed-arity pair
are rejected at the checking stage, and an in-place write of a number at
a valid position is accepted and succeeds at execution, replacing the
element and preserving the element count — but rejection does not keep
the append from executing (see the counterexample). -/
theorem c1_pair_checking_and_replacement :
    (∀ v : Value, checkPairOp (.push v) = false) ∧
    (∀ (i : Nat) (v : Value), 2 ≤ i → checkPairOp (.setAt i v) = false) ∧
    (∀ (xs : List Value) (i : Nat) (v : Value),
      xs.length = 2 → i < 2 → v.isNum = true →
      checkPairOp (.setAt i v) = true ∧
      pairExec xs (.setAt i v) = xs.set i v ∧
      (pairExec xs (.setAt i v)).length = 2) := by
  refine ⟨fun _ => rfl, ?_, ?_⟩
  · intro i v h
    have hd : decide (i < 2) = false := decide_eq_false (by omega)
    simp [checkPairOp, hd]
  · intro xs i v hlen hi hv
    have hd : i < xs.length := by omega
    refine ⟨?_, ?_, ?_⟩
    · simp [checkPairOp, hi, hv]
    · simp [pairExec, jsSet, hd]
    · simp [pairExec, jsSet, hlen, hi, List.length_set]

/-- C1 witness: the checker rejects `push 3` and the write at index 2,
accepts the write `tuple[0] = 5` on `[1, 2]`, whose execution replaces
the first element and keeps the count at 2. -/
theorem c1_pair_checking_and_replacement_witness :
    checkPairOp (.push (.num 3)) = false ∧
    checkPairOp (.setAt 2 (.num 3)) = false ∧
    checkPairOp (.setAt 0 (.num 5)) = true ∧
    pairExec [.num 1, .num 2] (.setAt 0 (.num 5)) = [.num 5, .num 2] ∧
    (pairExec [.num 1, .num 2] (.setAt 0 (.num 5))).length = 2 := by
  have h := c1_pair_checking_and_replacement
  have h3 := h.2.2 [.num 1, .num 2] 0 (.num 5) rfl (by decide) rfl
  exact ⟨h.1 (.num 3), h.2.1 2 (.num 3) (by decide), h3.1, h3.2.1.trans rfl, h3.2.2⟩

/-- C8 counterexample: under the spec's semantics, in which a
checker-rejected statement never executes, the artifact's operation
sequence would leave the pair at `[5, 2]`; the artifact's actual run
ends at `[5, 2, 3]` — the effect of a checker-rejected statement is
observable, so checking-stage rejection is not atomic in the code. -/
theorem c8_rejection_not_atomic_in_artifact :
    runCheckedPairOps [.num 1, .num 2] part000TupleOps = [.num 5, .num 2] ∧
    runPairOps [.num 1, .num 2] part000TupleOps = [.num 5, .num 2, .num 3] ∧
    runPairOps [.num 1, .num 2] part000TupleOps ≠
      runCheckedPairOps [.num 1, .num 2] part000TupleOps :=
  ⟨rfl, rfl, fun h => absurd (congrArg List.length h) (by decide)⟩

/-- C8 (amended): when rejection does suppress execution — the checked
semantics `runCheckedPairOps` — rejection is atomic: a rejected statement
leaves the state unchanged, and no sequence of pair operations can change
the pair's element count; the repository's compiled artifact, however,
executes the rejected append (see the counterexample). -/
theorem c8_checked_semantics_atomic :
    (∀ (xs : List Value) (op : PairOp),
      checkPairOp op = false → stepChecked xs op = xs) ∧
    (∀ (ops : List PairOp) (xs : List Value), xs.length = 2 →
      (runCheckedPairOps xs ops).length = 2) := by
  constructor
  · intro xs op h
    simp [stepChecked, h]
  · intro ops
    induction ops with
    | nil => intro xs h; exact h
    | cons op rest ih =>
      intro xs h
      have hstep : (stepChecked xs op).length = 2 := by
        cases op with
        | push v => simpa [stepChecked, checkPairOp] using h
        | setAt i v =>
          cases hb : checkPairOp (.setAt i v) with
          | false => simp [stepChecked, hb, h]
          | true =>
            have hi : i < 2 := by
              have := (Bool.and_eq_true _ _).mp hb
              exact of_decide_eq_true this.1
            simp [stepChecked, hb, pairExec, jsSet, h, hi, List.length_set]
      exact ih (stepChecked xs op) hstep

/-- C8 witness: the rejected append leaves `[1, 2]` unchanged under the
checked semantics, and running the artifact's operation sequence under
the checked semantics keeps the element count at 2. -/
theorem c8_checked_semantics_atomic_witness :
    stepChecked [.num 1, .num 2] (.push (.num 3)) = [.num 1, .num 2] ∧
    (runCheckedPairOps [.num 1, .num 2] part000TupleOps).length = 2 :=
  ⟨c8_checked_semantics_atomic.1 [.num 1, .num 2] (.push (.num 3)) rfl,
   c8_checked_semantics_atomic.2 part000TupleOps [.num 1, .num 2] rfl⟩

end TsP2
